import Mathlib

/-!
Verification of the filesystem-tree storage engine of the kasten repository.

The sled key-value trees are modelled as association lists from keys to byte
strings (`KvStore`).  Bytes are natural numbers below 256; machine integers are
natural numbers with explicit wrap-around (`% 2^16`, `% 2^64`) at the points
where the Rust code can overflow in release mode.  Rust strings are modelled by
their UTF-8 byte sequences (`List Nat`).  A Rust slice expression `bytes[a..b]`
panics when the bounds are out of range; slicing is therefore modelled by
`listSlice`, which returns `none` exactly when the Rust code would panic, and
every database operation returns an `Option`, where `none` models a panic and
`some` carries the Rust return value together with the post-state of the
store.  A transaction abort (`ConflictableTransactionError::Abort`) rolls all
writes of the transaction back, so an aborted operation is paired with the
unchanged pre-state.
-/

namespace Kasten

/-- Wrap-around constant of a 64-bit machine integer (usize / u64). -/
def U64MOD : Nat := 18446744073709551616

/-- Big-endian bytes of a `u16` value (`u16::to_be_bytes`). -/
def beU16 (n : Nat) : List Nat := [n / 256 % 256, n % 256]

/-- Big-endian bytes of a `u64` value (`u64::to_be_bytes`). -/
def beU64 (n : Nat) : List Nat :=
  [n / 72057594037927936 % 256, n / 281474976710656 % 256,
   n / 1099511627776 % 256, n / 4294967296 % 256,
   n / 16777216 % 256, n / 65536 % 256, n / 256 % 256, n % 256]

/-- Big-endian value of a byte string (`u16::from_be_bytes`,
`u64::from_be_bytes`; the callers always pass a slice of the right width). -/
def fromBe (l : List Nat) : Nat := l.foldl (fun a b => a * 256 + b) 0

/-- `bytes[a..b]` of a Rust byte slice: `none` models the panic on
out-of-range bounds. -/
def listSlice (l : List Nat) (a b : Nat) : Option (List Nat) :=
  if a ≤ b ∧ b ≤ l.length then some ((l.drop a).take (b - a)) else none

/-- `bytes[a..]` of a Rust byte slice: `none` models the panic when
`a > bytes.len()`. -/
def listSliceFrom (l : List Nat) (a : Nat) : Option (List Nat) :=
  if a ≤ l.length then some (l.drop a) else none

/-- A sled `Tree`: an association list from keys to byte-string values.  The
head of the list is the most recent binding. -/
abbrev KvStore (κ : Type) : Type := List (κ × List Nat)

/-- The empty tree. -/
def KvStore.empty (κ : Type) : KvStore κ := []

/-- `Tree::get`. -/
def KvStore.get {κ : Type} [DecidableEq κ] (s : KvStore κ) (k : κ) :
    Option (List Nat) :=
  (List.find? (fun p => decide (p.1 = k)) s).map (fun p => p.2)

/-- `Tree::insert` (overwrites an existing binding). -/
def KvStore.insert {κ : Type} [DecidableEq κ] (s : KvStore κ) (k : κ)
    (v : List Nat) : KvStore κ :=
  (k, v) :: List.filter (fun p => decide (p.1 ≠ k)) s

/-- The state change of `Tree::remove`. -/
def KvStore.remove {κ : Type} [DecidableEq κ] (s : KvStore κ) (k : κ) :
    KvStore κ :=
  List.filter (fun p => decide (p.1 ≠ k)) s

/-- `crate::Error`, restricted to the kinds raised by the modelled
operations. -/
inductive Error where
  | NoSuchFile
  | NoSuchDir
  | NoSuchTarget
  | NoSuchUser
  | TargetExists
  | ForbiddenAction
  | InconsistentDbState
  | BadCall
  | EntryNotFound
deriving DecidableEq, Repr

/-- `models::File`; strings are carried as their UTF-8 byte sequences. -/
structure File where
  id : Nat
  parent_id : Nat
  owner_id : Nat
  read_group_ids : List Nat
  write_group_ids : List Nat
  name : List Nat
  media_type : List Nat
deriving DecidableEq, Repr

/-- `models::Dir`. -/
structure Dir where
  id : Nat
  parent_id : Nat
  owner_id : Nat
  read_group_ids : List Nat
  write_group_ids : List Nat
  child_ids : List Nat
  name : List Nat
deriving DecidableEq, Repr

/-- `models::Group`. -/
structure Group where
  id : Nat
  name : List Nat
  member_ids : List Nat
  admin_ids : List Nat
deriving DecidableEq, Repr

/-- `models::User` (the variant stored by `UserDatabase`). -/
structure User where
  id : Nat
  name : List Nat
  pwd_hash : List Nat
  root_dir_id : Nat
  group_ids : List Nat
deriving DecidableEq, Repr

/-- `models::UserSession`; the creation date is carried as a plain natural
number timestamp. -/
structure UserSession where
  session_id : Nat
  user_id : Nat
  creation_date : Nat
deriving DecidableEq, Repr

/-! ## Record codec helpers (fs_db.rs lines 591-664) -/

/-- `string_to_bytes`: two big-endian length bytes followed by the string
bytes.  `none` models the `expect` panic when the string is longer than
`u16::MAX`. -/
def string_to_bytes (s : List Nat) : Option (List Nat) :=
  if s.length ≤ 65535 then some (beU16 s.length ++ s) else none

/-- `serialize_id_list`: two big-endian count bytes followed by the 8-byte
big-endian ids.  `none` models the `expect` panic when the list is longer than
`u16::MAX`. -/
def serialize_id_list (list : List Nat) : Option (List Nat) :=
  if list.length ≤ 65535 then some (beU16 list.length ++ (list.map beU64).flatten)
  else none

/-- `parse_db_string`: reads a 2-byte length followed by that many string
bytes, returning the string and the number of consumed bytes. -/
def parse_db_string (bytes : List Nat) : Option (List Nat × Nat) :=
  match listSlice bytes 0 2 with
  | none => none
  | some lb =>
    let length := fromBe lb
    match listSlice bytes 2 (2 + length) with
    | none => none
    | some s => some (s, length + 2)

/-- The loop shared by `parse_id_list` (start offset 2) and
`entry_to_dir_incomplete` (start offset 20): reads `count` 8-byte big-endian
ids, the i-th at `bytes[start + 8*i .. start + 8*i + 8]`. -/
def read_id_entries (bytes : List Nat) (i : Nat) : Nat → Option (List Nat)
  | 0 => some []
  | count + 1 =>
    match listSlice bytes i (i + 8) with
    | none => none
    | some s =>
      match read_id_entries bytes (i + 8) count with
      | none => none
      | some rest => some (fromBe s :: rest)

/-- `parse_id_list`: a 2-byte count followed by that many 8-byte ids. -/
def parse_id_list (bytes : List Nat) : Option (List Nat) :=
  match listSlice bytes 0 2 with
  | none => none
  | some lb => read_id_entries bytes 2 (fromBe lb)

/-- `parse_read_group_ids`. -/
def parse_read_group_ids (bytes : List Nat) : Option (List Nat) :=
  parse_id_list bytes

/-- `parse_write_group_ids`: skips `2 + 8 * read_count` bytes, then parses an
id list. -/
def parse_write_group_ids (bytes : List Nat) : Option (List Nat) :=
  match listSlice bytes 0 2 with
  | none => none
  | some cb =>
    match listSliceFrom bytes (2 + 8 * fromBe cb) with
    | none => none
    | some rest => parse_id_list rest

/-- `entry_to_dir_incomplete` (fs_db.rs lines 621-645).  Note that the source
reads the i-th child id at `bytes[(20 + i * 8)..(28 + i * 8)]`, i.e. starting
at offset 20, even though the children are stored starting at offset 18
(compare `get_dirs_childs`, which reads from 18).  The model reproduces this
faithfully.  `none` models a slice panic. -/
def entry_to_dir_incomplete (id : Nat) (bytes : List Nat) : Option Dir :=
  match listSlice bytes 0 8, listSlice bytes 8 16, listSlice bytes 16 18 with
  | some pb, some ob, some cb =>
    let child_number := fromBe cb
    match read_id_entries bytes 20 child_number,
          listSliceFrom bytes (18 + child_number * 8) with
    | some childs, some nameBytes =>
      some { id := id, parent_id := fromBe pb, owner_id := fromBe ob,
             read_group_ids := [], write_group_ids := [],
             child_ids := childs, name := nameBytes }
    | _, _ => none
  | _, _, _ => none

/-! ## Reference record layouts

These describe the byte strings that the storage operations themselves write:
`insert_new_file` writes `file_record_bytes`, the parent-directory splices of
`insert_new_file` / `insert_new_dir` keep directory records in the shape
`dir_record_bytes`, and the permission writers produce `perm_record_bytes`.
They are the encoders of the record codec. -/

/-- File record layout: `parent_id(8) | owner_id(8) | len(name)(2) | name |
len(media_type)(2) | media_type`. -/
def file_record_bytes (parent owner : Nat) (name media : List Nat) : List Nat :=
  beU64 parent ++ beU64 owner ++ beU16 name.length ++ name ++
    beU16 media.length ++ media

/-- Directory record layout: `parent_id(8) | owner_id(8) | child_count(2) |
child_id(8) x child_count | name`. -/
def dir_record_bytes (parent owner : Nat) (childIds : List Nat)
    (name : List Nat) : List Nat :=
  beU64 parent ++ beU64 owner ++ beU16 childIds.length ++
    (childIds.map beU64).flatten ++ name

/-- Permission record layout: `read_count(2) | read_id(8) x read_count |
write_count(2) | write_id(8) x write_count`. -/
def perm_record_bytes (readIds writeIds : List Nat) : List Nat :=
  beU16 readIds.length ++ (readIds.map beU64).flatten ++
    beU16 writeIds.length ++ (writeIds.map beU64).flatten

/-! ## FsDatabase (fs_db.rs) -/

/-- `FsDatabase`: the three sled trees of the filesystem engine, all keyed by
the 64-bit node id (the 8-byte big-endian key encoding is a bijection, so keys
are carried as the ids themselves). -/
structure FsDatabase where
  file_tree : KvStore Nat
  dir_tree : KvStore Nat
  permissions_tree : KvStore Nat
deriving DecidableEq, Repr

/-- The id-generation loop shared verbatim by `insert_new_file` (fs_db.rs
lines 154-163) and `insert_new_dir` (lines 336-345): draw candidates until one
is in neither the dir tree nor the file tree and is non-zero.  The random
number generator is modelled as the list of values it will produce; `none`
models a run in which the generator never yields an acceptable value. -/
def gen_node_id (dirT fileT : KvStore Nat) : List Nat → Option Nat
  | [] => none
  | c :: rest =>
    if (dirT.get c).isSome || (fileT.get c).isSome || c = 0 then
      gen_node_id dirT fileT rest
    else some c

/-- The parent-record rewrite of `insert_new_file` (fs_db.rs lines 165-185)
and `insert_new_dir` (lines 346-366): copy the 16 header bytes, write the
incremented child count, copy the old children, append the new child id, copy
the name.  `child_number += 1` is a `u16` addition (wraps in release mode) and
`child_number as usize - 1` is a `usize` subtraction (wraps in release mode);
both are modelled with explicit modular arithmetic. -/
def append_child_entry (parentBytes : List Nat) (newId : Nat) :
    Option (List Nat) :=
  match listSlice parentBytes 0 16, listSlice parentBytes 16 18 with
  | some header, some cb =>
    let child_number := (fromBe cb + 1) % 65536
    let cm1 := (child_number + (U64MOD - 1)) % U64MOD
    let endOfChilds := (18 + cm1 * 8 % U64MOD) % U64MOD
    match listSlice parentBytes 18 endOfChilds,
          listSliceFrom parentBytes endOfChilds with
    | some oldChilds, some tailBytes =>
      some (header ++ beU16 child_number ++ oldChilds ++ beU64 newId ++
        tailBytes)
    | _, _ => none
  | _, _ => none

/-- The find-and-drain loop of `remove_file` (fs_db.rs lines 291-300) and
`remove_dir` (lines 472-481): scan `remaining` child slots starting at slot
`i`; when the slot holds `id`, splice those 8 bytes out and stop. -/
def drain_loop (bytes : List Nat) (id : Nat) (i : Nat) :
    Nat → Option (List Nat)
  | 0 => some bytes
  | remaining + 1 =>
    match listSlice bytes (18 + i * 8) (26 + i * 8) with
    | none => none
    | some s =>
      if fromBe s = id then
        some (bytes.take (18 + i * 8) ++ bytes.drop (26 + i * 8))
      else drain_loop bytes id (i + 1) remaining

/-- The parent-record rewrite of `remove_file` and `remove_dir`: decrement the
`u16` child count in place (wraps in release mode) and drain the first child
slot holding `id`.  The loop runs over `child_number as usize + 1` slots,
where `child_number` is the already decremented count. -/
def remove_child_entry (parentBytes : List Nat) (id : Nat) :
    Option (List Nat) :=
  match listSlice parentBytes 16 18 with
  | none => none
  | some cb =>
    let child_number := (fromBe cb + 65535) % 65536
    let pb := (parentBytes.set 16 (child_number / 256 % 256)).set 17
      (child_number % 256)
    drain_loop pb id 0 (child_number + 1)

/-- `FsDatabase::get_file` (fs_db.rs lines 38-56).  The outer `Option` models
a panic while parsing the stored bytes; the inner one is the Rust return
value. -/
def FsDatabase.get_file (db : FsDatabase) (id : Nat) : Option (Option File) :=
  match db.file_tree.get id, db.permissions_tree.get id with
  | some file_entry, some perm_entry =>
    match listSliceFrom file_entry 16 with
    | none => none
    | some nameArea =>
      match parse_db_string nameArea with
      | none => none
      | some (name, name_len) =>
        match listSliceFrom file_entry (16 + name_len) with
        | none => none
        | some mediaArea =>
          match parse_db_string mediaArea,
                listSlice file_entry 0 8, listSlice file_entry 8 16,
                parse_read_group_ids perm_entry,
                parse_write_group_ids perm_entry with
          | some (media_type, _), some pb, some ob, some rg, some wg =>
            some (some { id := id, parent_id := fromBe pb,
                         owner_id := fromBe ob, read_group_ids := rg,
                         write_group_ids := wg, name := name,
                         media_type := media_type })
          | _, _, _, _, _ => none
  | _, _ => some none

/-- `FsDatabase::get_dir` (fs_db.rs lines 59-70). -/
def FsDatabase.get_dir (db : FsDatabase) (id : Nat) : Option (Option Dir) :=
  match db.dir_tree.get id, db.permissions_tree.get id with
  | some dir_entry, some perm_entry =>
    match entry_to_dir_incomplete id dir_entry,
          parse_read_group_ids perm_entry,
          parse_write_group_ids perm_entry with
    | some d, some rg, some wg =>
      some (some { d with read_group_ids := rg, write_group_ids := wg })
    | _, _, _ => none
  | _, _ => some none

/-- `FsDatabase::get_dirs_childs` (fs_db.rs lines 73-87): reads the child ids
starting at offset 18 (correctly, unlike `entry_to_dir_incomplete`). -/
def FsDatabase.get_dirs_childs (db : FsDatabase) (dir_id : Nat) :
    Option (Except Error (List Nat)) :=
  match db.dir_tree.get dir_id with
  | none => some (Except.error Error.EntryNotFound)
  | some dir =>
    match listSlice dir 16 18 with
    | none => none
    | some cb =>
      match read_id_entries dir 18 (fromBe cb) with
      | none => none
      | some childs => some (Except.ok childs)

/-- `FsDatabase::insert_new_file` (fs_db.rs lines 134-199).  Returns the file
with its fresh id together with the post-state; an `Except.error` is paired
with the unchanged pre-state (the transaction aborts). -/
def FsDatabase.insert_new_file (db : FsDatabase) (file : File)
    (rng : List Nat) : Option (Except Error File × FsDatabase) :=
  if file.read_group_ids.length > 65535 ∨ file.write_group_ids.length > 65535
  then some (Except.error Error.BadCall, db)
  else
    match string_to_bytes file.name, string_to_bytes file.media_type with
    | some nb, some mb =>
      let data := beU64 file.parent_id ++ beU64 file.owner_id ++ nb ++ mb
      match serialize_id_list file.read_group_ids,
            serialize_id_list file.write_group_ids with
      | some rb, some wb =>
        let perm_data := rb ++ wb
        match gen_node_id db.dir_tree db.file_tree rng with
        | none => none
        | some file_id =>
          match db.dir_tree.get file.parent_id with
          | none => some (Except.error Error.NoSuchDir, db)
          | some parent_bytes =>
            match append_child_entry parent_bytes file_id with
            | none => none
            | some new_parent_bytes =>
              some (Except.ok { file with id := file_id },
                { db with
                  dir_tree := db.dir_tree.insert file.parent_id
                    new_parent_bytes,
                  file_tree := db.file_tree.insert file_id data,
                  permissions_tree := db.permissions_tree.insert file_id
                    perm_data })
      | _, _ => none
    | _, _ => none

/-- `FsDatabase::insert_new_dir` (fs_db.rs lines 321-380).  A new directory
record carries a zero child count followed immediately by the raw name
bytes. -/
def FsDatabase.insert_new_dir (db : FsDatabase) (dir : Dir) (rng : List Nat) :
    Option (Except Error Dir × FsDatabase) :=
  let data := beU64 dir.parent_id ++ beU64 dir.owner_id ++ [0, 0] ++ dir.name
  match serialize_id_list dir.read_group_ids,
        serialize_id_list dir.write_group_ids with
  | some rb, some wb =>
    let perm_data := rb ++ wb
    match gen_node_id db.dir_tree db.file_tree rng with
    | none => none
    | some dir_id =>
      match db.dir_tree.get dir.parent_id with
      | none => some (Except.error Error.NoSuchDir, db)
      | some parent_bytes =>
        match append_child_entry parent_bytes dir_id with
        | none => none
        | some new_parent_bytes =>
          some (Except.ok { dir with id := dir_id },
            { db with
              dir_tree := (db.dir_tree.insert dir.parent_id
                new_parent_bytes).insert dir_id data,
              permissions_tree := db.permissions_tree.insert dir_id
                perm_data })
  | _, _ => none

/-- `FsDatabase::update_dir` (fs_db.rs lines 389-429).  The new record is
rebuilt as `parent_id(8) | owner_id(8) | old child bytes | name`: the source
copies `old_bytes[18..end_of_childs]` but never writes the two child-count
bytes.  `18 + 8 * count` is a `u16` expression (wraps in release mode). -/
def FsDatabase.update_dir (db : FsDatabase) (new_dir : Dir) :
    Option (Except Error Unit × FsDatabase) :=
  match serialize_id_list new_dir.read_group_ids,
        serialize_id_list new_dir.write_group_ids with
  | some rb, some wb =>
    let perm_data := rb ++ wb
    match db.dir_tree.get new_dir.id with
    | none => some (Except.error Error.NoSuchDir, db)
    | some old_bytes =>
      match listSlice old_bytes 16 18 with
      | none => none
      | some cb =>
        let end_of_childs := (18 + 8 * fromBe cb) % 65536
        match listSlice old_bytes 18 end_of_childs with
        | none => none
        | some childBytes =>
          let new_bytes := beU64 new_dir.parent_id ++
            beU64 new_dir.owner_id ++ childBytes ++ new_dir.name
          some (Except.ok (),
            { db with
              dir_tree := db.dir_tree.insert new_dir.id new_bytes,
              permissions_tree := db.permissions_tree.insert new_dir.id
                perm_data })
  | _, _ => none

/-- `FsDatabase::remove_file` (fs_db.rs lines 248-317).  After the
transaction commits, the permission record is removed and, when present, its
lists are copied into the returned file. -/
def FsDatabase.remove_file (db : FsDatabase) (id : Nat) :
    Option (Except Error File × FsDatabase) :=
  match db.file_tree.get id with
  | none => some (Except.error Error.NoSuchFile, db)
  | some bytes =>
    let fileT := db.file_tree.remove id
    match listSliceFrom bytes 16 with
    | none => none
    | some nameArea =>
      match parse_db_string nameArea with
      | none => none
      | some (name, name_len) =>
        match listSliceFrom bytes (16 + name_len) with
        | none => none
        | some mediaArea =>
          match parse_db_string mediaArea,
                listSlice bytes 0 8, listSlice bytes 8 16 with
          | some (media_type, _), some pb, some ob =>
            let res : File :=
              { id := id, parent_id := fromBe pb, owner_id := fromBe ob,
                read_group_ids := [], write_group_ids := [],
                name := name, media_type := media_type }
            match db.dir_tree.get res.parent_id with
            | none => some (Except.error Error.InconsistentDbState, db)
            | some parent_bytes =>
              match remove_child_entry parent_bytes id with
              | none => none
              | some new_parent_bytes =>
                let dirT := db.dir_tree.insert res.parent_id new_parent_bytes
                match db.permissions_tree.get id with
                | some perm_bytes =>
                  match parse_read_group_ids perm_bytes,
                        parse_write_group_ids perm_bytes with
                  | some rg, some wg =>
                    some (Except.ok
                      { res with read_group_ids := rg, write_group_ids := wg },
                      { file_tree := fileT, dir_tree := dirT,
                        permissions_tree := db.permissions_tree.remove id })
                  | _, _ => none
                | none =>
                  some (Except.ok res,
                    { file_tree := fileT, dir_tree := dirT,
                      permissions_tree := db.permissions_tree.remove id })
          | _, _, _ => none

/-- Total byte size of a store, used to bound the cascade loop of
`remove_dir`. -/
def store_bytes (s : KvStore Nat) : Nat :=
  s.foldl (fun a p => a + p.2.length + 1) 0

/-- The explicit work-stack loop of `remove_dir` (fs_db.rs lines 488-503).
The Rust loop pops from the back of the `Vec` and pushes the children of a
removed directory in order; the model keeps the stack top at the head, so
children are pushed reversed.  `fuel` bounds the number of iterations; the
Rust loop terminates because every directory-branch iteration removes one
record from the finite dir tree, and a yet-unparsed record of `n` children
occupies more than `n` bytes, so `store_bytes dirT + stack length` iterations
always suffice. -/
def remove_childs (fuel : Nat) (dirT fileT permT : KvStore Nat)
    (stack : List Nat) : Option (KvStore Nat × KvStore Nat × KvStore Nat) :=
  match fuel with
  | 0 => none
  | fuel + 1 =>
    match stack with
    | [] => some (dirT, fileT, permT)
    | next_id :: rest =>
      match dirT.get next_id with
      | some bytes =>
        match entry_to_dir_incomplete next_id bytes with
        | none => none
        | some d =>
          remove_childs fuel (dirT.remove next_id) fileT
            (permT.remove next_id) (d.child_ids.reverse ++ rest)
      | none =>
        remove_childs fuel dirT (fileT.remove next_id)
          (permT.remove next_id) rest

/-- `FsDatabase::remove_dir` (fs_db.rs lines 435-515).  Rejects root
directories before the transaction; inside the transaction it re-reads the
record, splices the directory out of its parent and runs the work-stack
cascade over `dir.child_ids` as parsed by `entry_to_dir_incomplete`; after
the transaction it removes the directory's own permission record.  The
directory's own dir-tree record is never removed (as in the source). -/
def FsDatabase.remove_dir (db : FsDatabase) (id : Nat) :
    Option (Except Error Dir × FsDatabase) :=
  match db.dir_tree.get id with
  | none => some (Except.error Error.NoSuchDir, db)
  | some b0 =>
    match entry_to_dir_incomplete id b0 with
    | none => none
    | some d0 =>
      if d0.parent_id = 0 then some (Except.error Error.ForbiddenAction, db)
      else
        match db.dir_tree.get id with
        | none => some (Except.error Error.NoSuchDir, db)
        | some b =>
          match entry_to_dir_incomplete id b with
          | none => none
          | some dir =>
            match db.dir_tree.get dir.parent_id with
            | none => some (Except.error Error.NoSuchDir, db)
            | some parent_bytes =>
              match remove_child_entry parent_bytes id with
              | none => none
              | some new_parent_bytes =>
                let dirT := db.dir_tree.insert dir.parent_id new_parent_bytes
                match remove_childs
                    (store_bytes dirT + dir.child_ids.length + 1) dirT
                    db.file_tree db.permissions_tree dir.child_ids.reverse with
                | none => none
                | some (dirT2, fileT2, permT2) =>
                  match permT2.get id with
                  | some perm_bytes =>
                    match parse_read_group_ids perm_bytes,
                          parse_write_group_ids perm_bytes with
                    | some rg, some wg =>
                      some (Except.ok
                        { dir with read_group_ids := rg,
                                   write_group_ids := wg },
                        { file_tree := fileT2, dir_tree := dirT2,
                          permissions_tree := permT2.remove id })
                    | _, _ => none
                  | none =>
                    some (Except.ok dir,
                      { file_tree := fileT2, dir_tree := dirT2,
                        permissions_tree := permT2.remove id })

/-! ## UserDatabase (user_db.rs) -/

/-- `UserDatabase`: the sled trees of the user/group store.  Trees keyed by a
name are keyed by the raw name bytes. -/
structure UserDatabase where
  username_id_tree : KvStore (List Nat)
  userid_name_tree : KvStore Nat
  userid_pwd_tree : KvStore Nat
  userid_rootdir_tree : KvStore Nat
  user_groups_tree : KvStore Nat
  group_tree : KvStore Nat
  groupname_id_tree : KvStore (List Nat)
deriving DecidableEq, Repr

/-- `UserDatabase::insert_user` (user_db.rs lines 123-142): writes the four
user trees; note that it never touches `user_groups_tree`. -/
def UserDatabase.insert_user (db : UserDatabase) (user : User) :
    UserDatabase :=
  { db with
    username_id_tree := db.username_id_tree.insert user.name
      (beU64 user.id),
    userid_name_tree := db.userid_name_tree.insert user.id user.name,
    userid_pwd_tree := db.userid_pwd_tree.insert user.id user.pwd_hash,
    userid_rootdir_tree := db.userid_rootdir_tree.insert user.id
      (beU64 user.root_dir_id) }

/-- The id-generation loop of `insert_new_group` (user_db.rs lines 203-208):
retry while the candidate is in the group tree or the user-groups tree. -/
def gen_group_id (groupT userGroupsT : KvStore Nat) : List Nat → Option Nat
  | [] => none
  | c :: rest =>
    if (groupT.get c).isSome || (userGroupsT.get c).isSome then
      gen_group_id groupT userGroupsT rest
    else some c

/-- The duplicate scan of the reverse-index loop (user_db.rs lines 246-250):
compare each 8-byte chunk of the stored group list with the new group id
bytes.  `fuel` bounds the iteration count (`bytes.length + 1` always
suffices, since each step advances by 8 bytes). -/
def chunk_scan (bytes pat : List Nat) (i : Nat) : Nat → Option Bool
  | 0 => some false
  | fuel + 1 =>
    if i < bytes.length then
      match listSlice bytes i (i + 8) with
      | none => none
      | some s => if s = pat then some true else chunk_scan bytes pat (i + 8) fuel
    else some false

/-- The reverse-index loop of `insert_new_group` (user_db.rs lines 234-253):
for each member and admin id, abort with `NoSuchTarget` when the user has no
entry in `user_groups_tree`; otherwise, unless the group id bytes already
occur in the entry, append — as the source does — the bytes of the USER id
(not the group id) to the entry. -/
def add_group_refs (userGroupsT : KvStore Nat) (groupIdBytes : List Nat) :
    List Nat → Option (Except Error (KvStore Nat))
  | [] => some (Except.ok userGroupsT)
  | user_id :: rest =>
    match userGroupsT.get user_id with
    | none => some (Except.error Error.NoSuchTarget)
    | some group_list_bytes =>
      match chunk_scan group_list_bytes groupIdBytes 0
          (group_list_bytes.length + 1) with
      | none => none
      | some true => add_group_refs userGroupsT groupIdBytes rest
      | some false =>
        add_group_refs
          (userGroupsT.insert user_id (group_list_bytes ++ beU64 user_id))
          groupIdBytes rest

/-- `UserDatabase::insert_new_group` (user_db.rs lines 191-261).  Checks the
name, draws an id, checks the list lengths, writes the group record and the
name index, then runs the reverse-index loop; an abort rolls every write
back. -/
def UserDatabase.insert_new_group (db : UserDatabase) (group : Group)
    (rng : List Nat) : Option (Except Error Group × UserDatabase) :=
  match db.groupname_id_tree.get group.name with
  | some _ => some (Except.error Error.TargetExists, db)
  | none =>
    match gen_group_id db.group_tree db.user_groups_tree rng with
    | none => none
    | some group_id =>
      if group.member_ids.length > 65535 ∨ group.admin_ids.length > 65535
      then some (Except.error Error.BadCall, db)
      else
        let data := beU16 group.member_ids.length ++
          (group.member_ids.map beU64).flatten ++
          beU16 group.admin_ids.length ++
          (group.admin_ids.map beU64).flatten ++ group.name
        match add_group_refs db.user_groups_tree (beU64 group_id)
            (group.member_ids ++ group.admin_ids) with
        | none => none
        | some (Except.error e) => some (Except.error e, db)
        | some (Except.ok userGroupsT2) =>
          some (Except.ok { group with id := group_id },
            { db with
              group_tree := db.group_tree.insert group_id data,
              groupname_id_tree := db.groupname_id_tree.insert group.name
                (beU64 group_id),
              user_groups_tree := userGroupsT2 })

/-- `UserDatabase::get_group_id_by_name` behaviour, read off the
`groupname_id_tree` index (user_db.rs keeps the name-to-id index there). -/
def UserDatabase.get_group_id_by_name (db : UserDatabase) (name : List Nat) :
    Option Nat :=
  (db.groupname_id_tree.get name).map fromBe

/-! ## Database session store (database/mod.rs) -/

/-- The session-store slice of `Database` (database/mod.rs).  Only the two
session trees are modelled; no modelled operation reads the remaining
trees of the facade. -/
structure Database where
  session_tree : KvStore Nat
  user_session_tree : KvStore (List Nat)
deriving DecidableEq, Repr

/-- The session-id loop of `Database::create_user_session` (mod.rs lines
73-77): retry while the candidate is in the session tree.  Unlike
`gen_node_id`, zero is NOT excluded. -/
def gen_session_id (sessionT : KvStore Nat) : List Nat → Option Nat
  | [] => none
  | c :: rest =>
    if (sessionT.get c).isSome then gen_session_id sessionT rest
    else some c

/-- `Database::create_user_session` (mod.rs lines 71-97).  The clock is
passed in as the timestamp `now`. -/
def Database.create_user_session (db : Database) (user_id : Nat)
    (rng : List Nat) (now : Nat) : Option (UserSession × Database) :=
  match gen_session_id db.session_tree rng with
  | none => none
  | some session_id =>
    let session_content := beU64 user_id ++ beU64 now
    let user_session_key := beU64 user_id ++ beU64 session_id
    some ({ session_id := session_id, user_id := user_id,
            creation_date := now },
      { db with
        session_tree := db.session_tree.insert session_id session_content,
        user_session_tree := db.user_session_tree.insert user_session_key
          [] })

/-! ## Concrete stores used by the counterexample and evaluation theorems -/

/-- The bytes of the name "home". -/
def homeName : List Nat := [104, 111, 109, 101]

/-- The bytes of the name "docs". -/
def docsName : List Nat := [100, 111, 99, 115]

/-- An empty permission record (zero readable and zero writeable groups). -/
def emptyPerm : List Nat := [0, 0, 0, 0]

/-- A store holding the root directory 1 (name "home", child 2), the
directory 2 (name "docs", parent 1, child 3) and the file 3 (parent 2),
each with an empty permission record. -/
def exDb1 : FsDatabase :=
  { file_tree := [(3, file_record_bytes 2 7 [97] [116])],
    dir_tree := [(1, dir_record_bytes 0 7 [2] homeName),
                 (2, dir_record_bytes 1 7 [3] docsName)],
    permissions_tree := [(1, emptyPerm), (2, emptyPerm), (3, emptyPerm)] }

/-- A store holding only the root directory 1 (name "home", no children)
with an empty permission record. -/
def exDb2 : FsDatabase :=
  { file_tree := [],
    dir_tree := [(1, dir_record_bytes 0 7 [] homeName)],
    permissions_tree := [(1, emptyPerm)] }

/-- A directory to insert under root 1: owner 7, name "docs", no children,
no permissions (the id field is overwritten by `insert_new_dir`). -/
def exNewDir : Dir :=
  { id := 0, parent_id := 1, owner_id := 7, read_group_ids := [],
    write_group_ids := [], child_ids := [], name := docsName }

/-- A store whose directory 1 carries the maximal child count 65535 in its
count field (header of 16 zero bytes followed by the count bytes 255, 255). -/
def exDbFull : FsDatabase :=
  { file_tree := [],
    dir_tree := [(1, List.replicate 16 0 ++ [255, 255])],
    permissions_tree := [(1, emptyPerm)] }

/-- A file to insert under the full parent of `exDbFull`. -/
def exNewFile : File :=
  { id := 0, parent_id := 1, owner_id := 7, read_group_ids := [],
    write_group_ids := [], name := [97], media_type := [116] }

/-- A store holding a root directory 1 with one child and an empty name:
its record is 26 bytes long, two bytes short of what
`entry_to_dir_incomplete` reads for one child. -/
def exDb7 : FsDatabase :=
  { file_tree := [],
    dir_tree := [(1, dir_record_bytes 0 7 [2] [])],
    permissions_tree := [(1, emptyPerm)] }

/-- A store holding the directory 5 (parent 1, owner 7, child 3,
name bytes "ab"). -/
def exDb9 : FsDatabase :=
  { file_tree := [],
    dir_tree := [(5, dir_record_bytes 1 7 [3] [97, 98])],
    permissions_tree := [(5, emptyPerm)] }

/-- The update argument for directory 5: same parent and owner, new name
bytes "xy"; its `child_ids` field is ignored by `update_dir`. -/
def exUpdateDir9 : Dir :=
  { id := 5, parent_id := 1, owner_id := 7, read_group_ids := [],
    write_group_ids := [], child_ids := [3], name := [120, 121] }

/-- The empty user database. -/
def emptyUserDb : UserDatabase :=
  { username_id_tree := [], userid_name_tree := [], userid_pwd_tree := [],
    userid_rootdir_tree := [], user_groups_tree := [], group_tree := [],
    groupname_id_tree := [] }

/-- The user 7 (name bytes "u7", root dir 1). -/
def exUser7 : User :=
  { id := 7, name := [117, 55], pwd_hash := [112], root_dir_id := 1,
    group_ids := [] }

/-- The group "team" with member and admin 7 (the id field is overwritten
by `insert_new_group`). -/
def exGroupTeam : Group :=
  { id := 0, name := [116, 101, 97, 109], member_ids := [7],
    admin_ids := [7] }

/-- The empty session database. -/
def emptyDatabase : Database :=
  { session_tree := [], user_session_tree := [] }

/-- A store holding the root directory 1 (owner 9, child 3) and the file 3
(parent 1, read group 4, write group 5), used to witness the remove_file
contract. -/
def exDb6 : FsDatabase :=
  { file_tree := [(3, file_record_bytes 1 7 [97] [116])],
    dir_tree := [(1, dir_record_bytes 0 9 [3] homeName)],
    permissions_tree := [(3, perm_record_bytes [4] [5])] }

/-- A store holding a file record for id 3 but no permission record,
used to witness the get-visibility theorem. -/
def exDb10 : FsDatabase :=
  { file_tree := [(3, file_record_bytes 1 7 [97] [116])],
    dir_tree := [],
    permissions_tree := [] }

/-- The store left behind by `remove_dir exDb1 2`: directory 2 is spliced out
of the root child list and its permission record is gone, but its own
dir-tree record, the descendant file 3 and the permission record of 3 all
survive. -/
def exDb1After : FsDatabase :=
  { file_tree := [(3, file_record_bytes 2 7 [97] [116])],
    dir_tree := [(1, dir_record_bytes 0 7 [] homeName),
                 (2, dir_record_bytes 1 7 [3] docsName)],
    permissions_tree := [(1, emptyPerm), (3, emptyPerm)] }

/-- The directory value returned by `remove_dir exDb1 2`: its child list is
the misparsed value 222319 (bytes 20..28 of the record, i.e. the last six
bytes of the encoded child id 3 followed by the first two name bytes). -/
def exRemovedDir2 : Dir :=
  { id := 2, parent_id := 1, owner_id := 7, read_group_ids := [],
    write_group_ids := [], child_ids := [222319], name := docsName }

/-- The store left behind by `insert_new_dir exDb2 exNewDir [2]`. -/
def exDb2After : FsDatabase :=
  { file_tree := [],
    dir_tree := [(2, beU64 1 ++ beU64 7 ++ [0, 0] ++ docsName),
                 (1, dir_record_bytes 0 7 [2] homeName)],
    permissions_tree := [(2, emptyPerm), (1, emptyPerm)] }

/-- The store left behind by `update_dir exDb9 exUpdateDir9`: the rebuilt
record of directory 5 has no child-count field, so its first child id 3 now
sits where the count belongs. -/
def exDb9After : FsDatabase :=
  { file_tree := [],
    dir_tree := [(5, beU64 1 ++ beU64 7 ++ beU64 3 ++ [120, 121])],
    permissions_tree := [(5, emptyPerm)] }

/-- The user database after `insert_user emptyUserDb exUser7`. -/
def exUserDb1 : UserDatabase := UserDatabase.insert_user emptyUserDb exUser7

/-- A store holding a root directory 1 (name "home", no children), used to
witness the root-protection theorem. -/
def exDbRoot : FsDatabase :=
  { file_tree := [],
    dir_tree := [(1, dir_record_bytes 0 7 [] homeName)],
    permissions_tree := [(1, emptyPerm)] }

/-! ## Helper lemmas about the codec -/

theorem beU64_length (n : Nat) : (beU64 n).length = 8 := rfl

theorem beU16_length (n : Nat) : (beU16 n).length = 2 := rfl

theorem fromBe_beU16 (n : Nat) (h : n < 65536) : fromBe (beU16 n) = n := by
  simp only [fromBe, beU16, List.foldl_cons, List.foldl_nil]
  omega

theorem fromBe_beU64 (n : Nat) (h : n < U64MOD) : fromBe (beU64 n) = n := by
  simp only [fromBe, beU64, List.foldl_cons, List.foldl_nil]
  simp only [U64MOD] at h
  omega

theorem flatten_map_beU64_length (ids : List Nat) :
    ((ids.map beU64).flatten).length = 8 * ids.length := by
  induction ids with
  | nil => simp
  | cons a as ih =>
    simp only [List.map_cons, List.flatten_cons, List.length_append, ih,
      beU64_length, List.length_cons]
    omega

theorem listSlice_exact (pre mid suf : List Nat) :
    listSlice (pre ++ (mid ++ suf)) pre.length (pre.length + mid.length) =
      some mid := by
  unfold listSlice
  rw [if_pos]
  · rw [List.drop_left, Nat.add_sub_cancel_left, List.take_left]
  · refine ⟨Nat.le_add_right _ _, ?_⟩
    simp only [List.length_append]
    omega

theorem listSliceFrom_exact (pre rest : List Nat) :
    listSliceFrom (pre ++ rest) pre.length = some rest := by
  unfold listSliceFrom
  rw [if_pos, List.drop_left]
  simp

theorem set_append_ge (l₁ l₂ : List Nat) (i : Nat) (v : Nat) :
    (l₁ ++ l₂).set (l₁.length + i) v = l₁ ++ l₂.set i v := by
  rw [List.set_append_right _ _ (Nat.le_add_right _ _), Nat.add_sub_cancel_left]

theorem parse_db_string_encode (s rest : List Nat) (h : s.length < 65536) :
    parse_db_string (beU16 s.length ++ (s ++ rest)) = some (s, s.length + 2) := by
  have h0 : listSlice (beU16 s.length ++ (s ++ rest)) 0 2 =
      some (beU16 s.length) := by
    have h1 := listSlice_exact [] (beU16 s.length) (s ++ rest)
    simpa [beU16_length] using h1
  have h2 : listSlice (beU16 s.length ++ (s ++ rest)) 2 (2 + s.length) =
      some s := by
    have h3 := listSlice_exact (beU16 s.length) s rest
    simpa [beU16_length] using h3
  simp only [parse_db_string, h0, fromBe_beU16 _ h, h2]

theorem read_id_entries_encode (ids : List Nat)
    (hb : ∀ c ∈ ids, c < U64MOD) :
    ∀ (pre suf : List Nat),
      read_id_entries (pre ++ ((ids.map beU64).flatten ++ suf)) pre.length
        ids.length = some ids := by
  induction ids with
  | nil => intro pre suf; simp [read_id_entries]
  | cons a as ih =>
    intro pre suf
    have ha : a < U64MOD := hb a (List.mem_cons_self a as)
    have has : ∀ c ∈ as, c < U64MOD := fun c hc => hb c (List.mem_cons_of_mem a hc)
    have hassoc : pre ++ (((a :: as).map beU64).flatten ++ suf) =
        pre ++ (beU64 a ++ (((as.map beU64).flatten) ++ suf)) := by
      simp [List.map_cons, List.flatten_cons, List.append_assoc]
    rw [hassoc]
    have hsl : listSlice (pre ++ (beU64 a ++ (((as.map beU64).flatten) ++ suf)))
        pre.length (pre.length + 8) = some (beU64 a) := by
      have h4 := listSlice_exact pre (beU64 a) (((as.map beU64).flatten) ++ suf)
      simpa [beU64_length] using h4
    have hrec : read_id_entries
        (pre ++ (beU64 a ++ (((as.map beU64).flatten) ++ suf)))
        (pre.length + 8) as.length = some as := by
      have h5 := ih has (pre ++ beU64 a) suf
      simpa [List.append_assoc, List.length_append, beU64_length] using h5
    simp only [List.length_cons, read_id_entries, hsl, hrec,
      fromBe_beU64 _ ha]

theorem drain_loop_encode (t : Nat) (ids : List Nat)
    (hb : ∀ c ∈ ids, c < U64MOD) (hm : t ∈ ids) :
    ∀ (i : Nat) (pre suf : List Nat), pre.length = 18 + i * 8 →
      drain_loop (pre ++ ((ids.map beU64).flatten ++ suf)) t i ids.length =
        some (pre ++ (((ids.erase t).map beU64).flatten ++ suf)) := by
  induction ids with
  | nil => cases hm
  | cons a as ih =>
    intro i pre suf hlen
    have ha : a < U64MOD := hb a (List.mem_cons_self a as)
    have has : ∀ c ∈ as, c < U64MOD := fun c hc => hb c (List.mem_cons_of_mem a hc)
    have hassoc : pre ++ (((a :: as).map beU64).flatten ++ suf) =
        pre ++ (beU64 a ++ (((as.map beU64).flatten) ++ suf)) := by
      simp [List.map_cons, List.flatten_cons, List.append_assoc]
    have hsl : listSlice (pre ++ (beU64 a ++ (((as.map beU64).flatten) ++ suf)))
        (18 + i * 8) (26 + i * 8) = some (beU64 a) := by
      have h4 := listSlice_exact pre (beU64 a) (((as.map beU64).flatten) ++ suf)
      rw [beU64_length] at h4
      rw [show (18 + i * 8) = pre.length from hlen.symm,
          show (26 + i * 8) = pre.length + 8 from by omega]
      exact h4
    rw [hassoc]
    by_cases hat : a = t
    · subst hat
      have herase : (a :: as).erase a = as := by simp
      rw [herase]
      have htake : (pre ++ (beU64 a ++ (((as.map beU64).flatten) ++ suf))).take
          (18 + i * 8) = pre := by
        rw [← hlen]; exact List.take_left pre _
      have hdrop : (pre ++ (beU64 a ++ (((as.map beU64).flatten) ++ suf))).drop
          (26 + i * 8) = ((as.map beU64).flatten) ++ suf := by
        have h6 : (26 + i * 8) = (pre ++ beU64 a).length := by
          simp [List.length_append, beU64_length]; omega
        rw [h6, ← List.append_assoc]
        exact List.drop_left (pre ++ beU64 a) _
      simp only [List.length_cons, drain_loop, hsl, fromBe_beU64 _ ha,
        htake, hdrop]
      simp
    · have hmas : t ∈ as := by
        rcases List.mem_cons.mp hm with h | h
        · exact absurd h.symm hat
        · exact h
      have herase : (a :: as).erase t = a :: as.erase t := by
        rw [List.erase_cons_tail]
        simp [hat]
      have hrec := ih has hmas (i + 1) (pre ++ beU64 a) suf
        (by simp [List.length_append, beU64_length]; omega)
      rw [herase]
      simp only [List.length_cons, drain_loop, hsl, fromBe_beU64 _ ha,
        if_neg hat]
      rw [← List.append_assoc] at hrec ⊢
      simpa [List.map_cons, List.flatten_cons, List.append_assoc] using hrec

theorem remove_child_entry_encode (pp po t : Nat) (children dname : List Nat)
    (hlen : children.length < 65536) (hb : ∀ c ∈ children, c < U64MOD)
    (hm : t ∈ children) :
    remove_child_entry (dir_record_bytes pp po children dname) t =
      some (dir_record_bytes pp po (children.erase t) dname) := by
  have hne : 1 ≤ children.length :=
    List.length_pos.mpr (List.ne_nil_of_mem hm)
  have hcb : listSlice (dir_record_bytes pp po children dname) 16 18 =
      some (beU16 children.length) := by
    have h1 := listSlice_exact (beU64 pp ++ beU64 po) (beU16 children.length)
      ((children.map beU64).flatten ++ dname)
    simp only [List.length_append, beU64_length, beU16_length] at h1
    simpa [dir_record_bytes, List.append_assoc] using h1
  have hcn : (children.length + 65535) % 65536 = children.length - 1 := by
    omega
  have hset : ((dir_record_bytes pp po children dname).set 16
        ((children.length - 1) / 256 % 256)).set 17
        ((children.length - 1) % 256) =
      (beU64 pp ++ beU64 po ++ beU16 (children.length - 1)) ++
        ((children.map beU64).flatten ++ dname) := by
    simp only [dir_record_bytes]
    rw [show beU64 pp ++ beU64 po ++ beU16 children.length ++
          (children.map beU64).flatten ++ dname =
        (beU64 pp ++ beU64 po) ++ (beU16 children.length ++
          ((children.map beU64).flatten ++ dname)) from by
      simp [List.append_assoc]]
    rw [show (16 : Nat) = (beU64 pp ++ beU64 po).length + 0 from by
      simp [beU64_length]]
    rw [set_append_ge]
    rw [show (17 : Nat) = (beU64 pp ++ beU64 po).length + 1 from by
      simp [beU64_length]]
    rw [set_append_ge]
    simp [beU16, List.append_assoc]
  have hd := drain_loop_encode t children hb hm 0
    (beU64 pp ++ beU64 po ++ beU16 (children.length - 1)) dname
    (by simp [beU64_length, beU16_length])
  have hel : (children.erase t).length = children.length - 1 :=
    List.length_erase_of_mem hm
  simp only [remove_child_entry, hcb, fromBe_beU16 _ hlen, hcn, hset]
  rw [show children.length - 1 + 1 = children.length from by omega]
  rw [hd]
  simp [dir_record_bytes, hel, List.append_assoc]

theorem parse_id_list_encode (ids rest : List Nat) (hl : ids.length < 65536)
    (hb : ∀ c ∈ ids, c < U64MOD) :
    parse_id_list (beU16 ids.length ++ ((ids.map beU64).flatten ++ rest)) =
      some ids := by
  have h0 : listSlice (beU16 ids.length ++ ((ids.map beU64).flatten ++ rest))
      0 2 = some (beU16 ids.length) := by
    have h1 := listSlice_exact [] (beU16 ids.length)
      ((ids.map beU64).flatten ++ rest)
    simpa [beU16_length] using h1
  have h2 := read_id_entries_encode ids hb (beU16 ids.length) rest
  rw [beU16_length] at h2
  simp only [parse_id_list, h0, fromBe_beU16 _ hl, h2]

theorem parse_read_group_ids_encode (rg wg : List Nat)
    (hr : rg.length < 65536) (hbr : ∀ c ∈ rg, c < U64MOD) :
    parse_read_group_ids (perm_record_bytes rg wg) = some rg := by
  have h1 := parse_id_list_encode rg
    (beU16 wg.length ++ (wg.map beU64).flatten) hr hbr
  simpa [parse_read_group_ids, perm_record_bytes, List.append_assoc] using h1

theorem parse_write_group_ids_encode (rg wg : List Nat)
    (hr : rg.length < 65536) (hw : wg.length < 65536)
    (hbw : ∀ c ∈ wg, c < U64MOD) :
    parse_write_group_ids (perm_record_bytes rg wg) = some wg := by
  have h0 : listSlice (perm_record_bytes rg wg) 0 2 =
      some (beU16 rg.length) := by
    have h1 := listSlice_exact [] (beU16 rg.length)
      ((rg.map beU64).flatten ++ (beU16 wg.length ++ (wg.map beU64).flatten))
    simpa [perm_record_bytes, beU16_length, List.append_assoc] using h1
  have hskip : listSliceFrom (perm_record_bytes rg wg) (2 + 8 * rg.length) =
      some (beU16 wg.length ++ (wg.map beU64).flatten) := by
    have h2 := listSliceFrom_exact (beU16 rg.length ++ (rg.map beU64).flatten)
      (beU16 wg.length ++ (wg.map beU64).flatten)
    rw [List.length_append, beU16_length, flatten_map_beU64_length] at h2
    simpa [perm_record_bytes, List.append_assoc] using h2
  have h3 := parse_id_list_encode wg [] hw hbw
  simp only [List.append_nil] at h3
  simp only [parse_write_group_ids, h0, fromBe_beU16 _ hr, hskip, h3]

theorem file_record_slice_from_16 (p o : Nat) (nm mt : List Nat) :
    listSliceFrom (file_record_bytes p o nm mt) 16 =
      some (beU16 nm.length ++ (nm ++ (beU16 mt.length ++ mt))) := by
  have h := listSliceFrom_exact (beU64 p ++ beU64 o)
    (beU16 nm.length ++ (nm ++ (beU16 mt.length ++ mt)))
  rw [show (beU64 p ++ beU64 o).length = 16 from by simp [beU64_length]] at h
  simpa [file_record_bytes, List.append_assoc] using h

theorem file_record_media_area (p o : Nat) (nm mt : List Nat) :
    listSliceFrom (file_record_bytes p o nm mt) (16 + (nm.length + 2)) =
      some (beU16 mt.length ++ mt) := by
  have h := listSliceFrom_exact (beU64 p ++ beU64 o ++ beU16 nm.length ++ nm)
    (beU16 mt.length ++ mt)
  rw [show (beU64 p ++ beU64 o ++ beU16 nm.length ++ nm).length =
      16 + (nm.length + 2) from by simp [beU64_length, beU16_length]; omega] at h
  simpa [file_record_bytes, List.append_assoc] using h

theorem file_record_slice_0_8 (p o : Nat) (nm mt : List Nat) :
    listSlice (file_record_bytes p o nm mt) 0 8 = some (beU64 p) := by
  have h := listSlice_exact [] (beU64 p)
    (beU64 o ++ (beU16 nm.length ++ (nm ++ (beU16 mt.length ++ mt))))
  simpa [file_record_bytes, beU64_length, List.append_assoc] using h

theorem file_record_slice_8_16 (p o : Nat) (nm mt : List Nat) :
    listSlice (file_record_bytes p o nm mt) 8 16 = some (beU64 o) := by
  have h := listSlice_exact (beU64 p) (beU64 o)
    (beU16 nm.length ++ (nm ++ (beU16 mt.length ++ mt)))
  rw [beU64_length, beU64_length] at h
  simpa [file_record_bytes, List.append_assoc] using h

theorem parse_db_string_encode_nil (s : List Nat) (h : s.length < 65536) :
    parse_db_string (beU16 s.length ++ s) = some (s, s.length + 2) := by
  have h1 := parse_db_string_encode s [] h
  simpa using h1

/-- C6: `remove_file(id)` fails with `NoSuchFile` when no file record with
that id exists, leaving the store unchanged; when the file exists but its
parent directory record is missing it fails with `InconsistentDbState`; and
when both exist it returns the pre-removal file record, removes the file
record, decrements the parent child count by one and splices exactly the
first matching id out of the parent child list, preserving the order of the
remaining children (the new parent record is the old one with `id` erased
from the child list). -/
theorem remove_file_contract (db : FsDatabase) (id p o pp po : Nat)
    (nm mt dname children rg wg : List Nat) :
    (db.file_tree.get id = none →
      db.remove_file id = some (Except.error Error.NoSuchFile, db)) ∧
    (db.file_tree.get id = some (file_record_bytes p o nm mt) →
      nm.length < 65536 → mt.length < 65536 → p < U64MOD →
      db.dir_tree.get p = none →
      db.remove_file id = some (Except.error Error.InconsistentDbState, db)) ∧
    (db.file_tree.get id = some (file_record_bytes p o nm mt) →
      nm.length < 65536 → mt.length < 65536 → p < U64MOD → o < U64MOD →
      db.dir_tree.get p = some (dir_record_bytes pp po children dname) →
      children.length < 65536 → (∀ c ∈ children, c < U64MOD) →
      id ∈ children →
      db.permissions_tree.get id = some (perm_record_bytes rg wg) →
      rg.length < 65536 → wg.length < 65536 →
      (∀ g ∈ rg, g < U64MOD) → (∀ g ∈ wg, g < U64MOD) →
      db.remove_file id = some (Except.ok
        { id := id, parent_id := p, owner_id := o, read_group_ids := rg,
          write_group_ids := wg, name := nm, media_type := mt },
        { file_tree := db.file_tree.remove id,
          dir_tree := db.dir_tree.insert p
            (dir_record_bytes pp po (children.erase id) dname),
          permissions_tree := db.permissions_tree.remove id })) := by
  refine ⟨?_, ?_, ?_⟩
  · intro hf
    simp only [FsDatabase.remove_file, hf]
  · intro hf hnm hmt hp hdir
    simp only [FsDatabase.remove_file, hf, file_record_slice_from_16,
      parse_db_string_encode nm (beU16 mt.length ++ mt) hnm,
      file_record_media_area, parse_db_string_encode_nil mt hmt,
      file_record_slice_0_8, file_record_slice_8_16,
      fromBe_beU64 p hp, hdir]
  · intro hf hnm hmt hp ho hdir hcl hcb hmem hperm hrl hwl hrb hwb
    simp only [FsDatabase.remove_file, hf, file_record_slice_from_16,
      parse_db_string_encode nm (beU16 mt.length ++ mt) hnm,
      file_record_media_area, parse_db_string_encode_nil mt hmt,
      file_record_slice_0_8, file_record_slice_8_16,
      fromBe_beU64 p hp, fromBe_beU64 o ho, hdir,
      remove_child_entry_encode pp po id children dname hcl hcb hmem,
      hperm, parse_read_group_ids_encode rg wg hrl hrb,
      parse_write_group_ids_encode rg wg hrl hwl hwb]

/-- Witness for the remove_file contract: removing file 3 from `exDb6`
succeeds, returns the stored record with its permission lists, erases 3 from
the parent child list and drops the file and permission records. -/
theorem remove_file_contract_witness :
    FsDatabase.remove_file exDb6 3 = some (Except.ok
      { id := 3, parent_id := 1, owner_id := 7, read_group_ids := [4],
        write_group_ids := [5], name := [97], media_type := [116] },
      { file_tree := KvStore.remove exDb6.file_tree 3,
        dir_tree := KvStore.insert exDb6.dir_tree 1
          (dir_record_bytes 0 9 (List.erase [3] 3) homeName),
        permissions_tree := KvStore.remove exDb6.permissions_tree 3 }) :=
  (remove_file_contract exDb6 3 1 7 0 9 [97] [116] homeName [3] [4]
    [5]).2.2 rfl (by decide) (by decide) (by decide) (by decide) rfl
    (by decide) (by decide) (by decide) rfl (by decide) (by decide)
    (by decide) (by decide)

/-- C7 counterexample: for the root directory 1 of `exDb7`, whose record has
one child and an empty name (26 bytes), `remove_dir` does not fail with
`ForbiddenAction`: the pre-check parse `entry_to_dir_incomplete` reads the
child id at `bytes[20..28]`, past the end of the record, and panics
(modelled by `none`). -/
theorem remove_dir_root_panic : FsDatabase.remove_dir exDb7 1 = none := rfl

/-- C7 (amended): for every directory whose stored record parses without a
panic (in particular whenever it has no children or its name is at least two
bytes long) and whose parent id is 0, `remove_dir` fails with
`ForbiddenAction` and returns the store unchanged. -/
theorem remove_dir_root_contract (db : FsDatabase) (id : Nat) (b : List Nat)
    (d : Dir) (hget : db.dir_tree.get id = some b)
    (hparse : entry_to_dir_incomplete id b = some d)
    (hroot : d.parent_id = 0) :
    db.remove_dir id = some (Except.error Error.ForbiddenAction, db) := by
  simp only [FsDatabase.remove_dir, hget, hparse, hroot, if_pos]

/-- Witness for the root-protection theorem at the concrete store
`exDbRoot`. -/
theorem remove_dir_root_contract_witness :
    FsDatabase.remove_dir exDbRoot 1 =
      some (Except.error Error.ForbiddenAction, exDbRoot) :=
  remove_dir_root_contract exDbRoot 1 (dir_record_bytes 0 7 [] homeName)
    { id := 1, parent_id := 0, owner_id := 7, read_group_ids := [],
      write_group_ids := [], child_ids := [], name := homeName }
    rfl (by decide) rfl

/-- C10: `get_file` and `get_dir` return `Some` only when both the node
record and the permission record exist; when either record is missing they
return `None` (and never panic). -/
theorem get_requires_both_records (db : FsDatabase) (id : Nat) :
    ((db.file_tree.get id = none ∨ db.permissions_tree.get id = none) →
      db.get_file id = some none) ∧
    (∀ f, db.get_file id = some (some f) →
      (db.file_tree.get id).isSome ∧ (db.permissions_tree.get id).isSome) ∧
    ((db.dir_tree.get id = none ∨ db.permissions_tree.get id = none) →
      db.get_dir id = some none) ∧
    (∀ d, db.get_dir id = some (some d) →
      (db.dir_tree.get id).isSome ∧ (db.permissions_tree.get id).isSome) := by
  refine ⟨?_, ?_, ?_, ?_⟩
  · intro h
    rcases h with h | h
    · simp only [FsDatabase.get_file, h]
    · simp only [FsDatabase.get_file, h]
      cases db.file_tree.get id <;> rfl
  · intro f h
    cases hf : db.file_tree.get id with
    | none => simp [FsDatabase.get_file, hf] at h
    | some fe =>
      cases hp : db.permissions_tree.get id with
      | none => simp [FsDatabase.get_file, hf, hp] at h
      | some pe => simp [hf, hp]
  · intro h
    rcases h with h | h
    · simp only [FsDatabase.get_dir, h]
    · simp only [FsDatabase.get_dir, h]
      cases db.dir_tree.get id <;> rfl
  · intro d h
    cases hd : db.dir_tree.get id with
    | none => simp [FsDatabase.get_dir, hd] at h
    | some de =>
      cases hp : db.permissions_tree.get id with
      | none => simp [FsDatabase.get_dir, hd, hp] at h
      | some pe => simp [hd, hp]

/-- Witness for the visibility theorem: in `exDb10` the file record of node 3
is stored but its permission record is absent, so `get_file` returns
`None`. -/
theorem get_requires_both_records_witness :
    FsDatabase.get_file exDb10 3 = some none :=
  (get_requires_both_records exDb10 3).1 (Or.inr rfl)

/-- C4 counterexample: `create_user_session` draws ids only until one is
absent from the session tree and never excludes zero, so on an empty store a
generator yielding 0 allocates the session id 0 — the claim that every
allocated identifier is non-zero fails for session ids. -/
theorem create_user_session_zero_id :
    Database.create_user_session emptyDatabase 7 [0] 100 =
      some ({ session_id := 0, user_id := 7, creation_date := 100 },
        { session_tree := [(0, beU64 7 ++ beU64 100)],
          user_session_tree := [(beU64 7 ++ beU64 0, [])] }) := rfl

/-- C4 (amended): every file or directory id allocated by the shared loop of
`insert_new_file` / `insert_new_dir` is non-zero and absent from both the
file and the directory collection; every session id allocated by
`create_user_session` is absent from the session collection, but zero is not
excluded there. -/
theorem id_allocation_contract :
    (∀ (dirT fileT : KvStore Nat) (rng : List Nat) (id : Nat),
      gen_node_id dirT fileT rng = some id →
      id ≠ 0 ∧ dirT.get id = none ∧ fileT.get id = none) ∧
    (∀ (sessionT : KvStore Nat) (rng : List Nat) (id : Nat),
      gen_session_id sessionT rng = some id → sessionT.get id = none) := by
  constructor
  · intro dirT fileT rng
    induction rng with
    | nil => intro id h; cases h
    | cons c rest ih =>
      intro id h
      by_cases hc : (dirT.get c).isSome || (fileT.get c).isSome || c = 0
      · rw [gen_node_id, if_pos hc] at h
        exact ih id h
      · rw [gen_node_id, if_neg hc] at h
        cases h
        have h1 : ¬(dirT.get c).isSome = true := fun hh => hc (by simp [hh])
        have h2 : ¬(fileT.get c).isSome = true := fun hh => hc (by simp [hh])
        have h3 : c ≠ 0 := fun hh => hc (by simp [hh])
        exact ⟨h3, Option.not_isSome_iff_eq_none.mp h1,
          Option.not_isSome_iff_eq_none.mp h2⟩
  · intro sessionT rng
    induction rng with
    | nil => intro id h; cases h
    | cons c rest ih =>
      intro id h
      by_cases hc : (sessionT.get c).isSome
      · rw [gen_session_id, if_pos hc] at h
        exact ih id h
      · rw [gen_session_id, if_neg hc] at h
        cases h
        exact Option.not_isSome_iff_eq_none.mp hc

/-- Witness for the allocation theorem: on empty stores the first candidate 5
is accepted, is non-zero and collides with nothing. -/
theorem id_allocation_contract_witness :
    ((5 : Nat) ≠ 0 ∧ KvStore.get ([] : KvStore Nat) 5 = none ∧
      KvStore.get ([] : KvStore Nat) 5 = none) ∧
    KvStore.get ([] : KvStore Nat) 5 = none :=
  ⟨id_allocation_contract.1 [] [] [5] 5 rfl,
   id_allocation_contract.2 [] [5] 5 rfl⟩

/-- C1: evaluation of the cascading-delete failure.  In `exDb1` the
directory 2 (parent 1) has the single descendant file 3, yet after
`remove_dir 2` returns successfully the file 3 is still retrievable via
`get_file`, its permission record is still present, and even the dir-tree
record of directory 2 itself survives: the cascade walked the misparsed
child id 222319 instead of 3 (and the source never removes the directory's
own record). -/
theorem remove_dir_cascade_code_bug :
    FsDatabase.remove_dir exDb1 2 =
      some (Except.ok exRemovedDir2, exDb1After) ∧
    FsDatabase.get_file exDb1After 3 =
      some (some { id := 3, parent_id := 2, owner_id := 7,
                   read_group_ids := [], write_group_ids := [],
                   name := [97], media_type := [116] }) ∧
    KvStore.get exDb1After.permissions_tree 3 = some emptyPerm ∧
    KvStore.get exDb1After.dir_tree 2 =
      some (dir_record_bytes 1 7 [3] docsName) :=
  ⟨rfl, rfl, rfl, rfl⟩

/-- C2: evaluation of scenario 1.  Inserting the directory "docs" under the
root 1 of `exDb2` succeeds and returns a directory with parent 1, owner 7
and no children, and the stored root record does gain exactly the child 2 —
but `get_dir 1` afterwards reports the child list `[157807]` (the misparsed
bytes 20..28) instead of `[2]`. -/
theorem insert_new_dir_get_dir_code_bug :
    FsDatabase.insert_new_dir exDb2 exNewDir [2] =
      some (Except.ok { exNewDir with id := 2 }, exDb2After) ∧
    KvStore.get exDb2After.dir_tree 1 =
      some (dir_record_bytes 0 7 [2] homeName) ∧
    FsDatabase.get_dir exDb2After 1 =
      some (some { id := 1, parent_id := 0, owner_id := 7,
                   read_group_ids := [], write_group_ids := [],
                   child_ids := [157807], name := homeName }) ∧
    (157807 : Nat) ≠ 2 :=
  ⟨rfl, rfl, rfl, by decide⟩

/-- C3: the directory codec does not round-trip.  Encoding the directory 5
(parent 1, owner 7, children `[3]`, name "ab") in the documented layout and
decoding it with `entry_to_dir_incomplete` yields the child list `[221538]`
instead of `[3]`: decode(encode(x)) differs from x. -/
theorem dir_codec_roundtrip_code_bug :
    entry_to_dir_incomplete 5 (dir_record_bytes 1 7 [3] [97, 98]) =
      some { id := 5, parent_id := 1, owner_id := 7, read_group_ids := [],
             write_group_ids := [], child_ids := [221538],
             name := [97, 98] } ∧
    (221538 : Nat) ≠ 3 :=
  ⟨rfl, by decide⟩

/-- C5: inserting under a parent whose stored child count is 65535 does not
report an error: the count wraps to 0, `child_number as usize - 1` wraps to
2^64 - 1, and the slice `parent_bytes[18..10]` panics (modelled by `none`)
in both `insert_new_file` and `insert_new_dir`. -/
theorem child_count_overflow_code_bug :
    FsDatabase.insert_new_file exDbFull exNewFile [42] = none ∧
    FsDatabase.insert_new_dir exDbFull exNewDir [42] = none :=
  ⟨rfl, rfl⟩

/-- C8: `insert_new_group` rejects a group whose single member and admin is
the existing user 7: the existence check consults `user_groups_tree`, which
`insert_user` never writes, so the insert aborts with `NoSuchTarget` even
though user 7 is present in the user trees. -/
theorem insert_new_group_code_bug :
    UserDatabase.insert_new_group exUserDb1 exGroupTeam [9] =
      some (Except.error Error.NoSuchTarget, exUserDb1) ∧
    KvStore.get exUserDb1.userid_name_tree 7 = some [117, 55] :=
  ⟨rfl, rfl⟩

/-- C9: `update_dir` does not preserve the stored child list.  In `exDb9`
the directory 5 has the child list `[3]`; after `update_dir` (which copies
the child bytes but omits the two count bytes) the stored record reports no
children at all. -/
theorem update_dir_code_bug :
    FsDatabase.update_dir exDb9 exUpdateDir9 =
      some (Except.ok (), exDb9After) ∧
    FsDatabase.get_dirs_childs exDb9 5 = some (Except.ok [3]) ∧
    FsDatabase.get_dirs_childs exDb9After 5 = some (Except.ok []) :=
  ⟨rfl, rfl, rfl⟩

end Kasten
